import Mathlib

/-!
Shallow embedding of the PS/2 GPIO bit-bang driver protocol core from
src/drivers/ps2/ps2_gpio.c: the mode dispatcher, the receive and transmit
state machines, the frame codec, write orchestration and byte delivery.

Modelling conventions:
- The mutable fields of struct ps2_gpio_data become a Lean structure; every
  handler is a pure function from the old state (plus the sampled line
  levels and the results of the fallible GPIO configuration calls) to the
  new state together with the ordered list of side effects it performed.
- Machine integers are Nat with an explicit mod where the C type truncates
  (uint8_t accumulator, uint16_t write buffer); error codes are Int.
- The semaphore write_lock (k_sem with initial count 0 and limit 1) is a
  Nat count; k_sem_take with K_NO_WAIT returns -EBUSY when the count is 0.
- GPIO side effects record which physical line a call touches.  Note that
  in the source ps2_gpio_set_scl calls gpio_pin_set on the SDA device and
  pin, and ps2_gpio_set_sda calls gpio_pin_set on the SCL device and pin;
  the embedding reproduces those targets exactly as written.
-/

/-- Bit positions of a PS/2 frame, as defined in the source. -/
def PS2_GPIO_POS_START : Nat := 0

/-- Parity bit position of a PS/2 frame. -/
def PS2_GPIO_POS_PARITY : Nat := 9

/-- Stop bit position of a PS/2 frame. -/
def PS2_GPIO_POS_STOP : Nat := 10

/-- Acknowledgment bit position, used in write mode only. -/
def PS2_GPIO_POS_ACK : Nat := 11

/-- Macro PS2_GPIO_GET_BIT: (data >> bit_pos) & 0x1. -/
def PS2_GPIO_GET_BIT (data bit_pos : Nat) : Nat := (data >>> bit_pos) &&& 1

/-- Macro PS2_GPIO_SET_BIT applied to the uint8_t read accumulator:
data |= bit_val << bit_pos, truncated to 8 bits by the store. -/
def PS2_GPIO_SET_BIT8 (data bit_val bit_pos : Nat) : Nat :=
  (data ||| (bit_val <<< bit_pos)) % 256

/-- Macro PS2_GPIO_SET_BIT applied to the uint16_t write buffer:
data |= bit_val << bit_pos, truncated to 16 bits by the store. -/
def PS2_GPIO_SET_BIT16 (data bit_val bit_pos : Nat) : Nat :=
  (data ||| (bit_val <<< bit_pos)) % 65536

/-- Enum ps2_gpio_mode from the source. -/
inductive ps2_gpio_mode
  | PS2_GPIO_MODE_READ
  | PS2_GPIO_MODE_WRITE
deriving DecidableEq

/-- Enum ps2_gpio_write_status from the source, in declaration order. -/
inductive ps2_gpio_write_status
  | PS2_GPIO_WRITE_STATUS_INACTIVE
  | PS2_GPIO_WRITE_STATUS_ACTIVE
  | PS2_GPIO_WRITE_STATUS_SUCCESS
  | PS2_GPIO_WRITE_STATUS_FAILURE
deriving DecidableEq

/-- Numeric value of a ps2_gpio_write_status enumerator (C gives them
consecutive values starting at 0). -/
def ps2_gpio_write_status.toInt : ps2_gpio_write_status → Int
  | .PS2_GPIO_WRITE_STATUS_INACTIVE => 0
  | .PS2_GPIO_WRITE_STATUS_ACTIVE => 1
  | .PS2_GPIO_WRITE_STATUS_SUCCESS => 2
  | .PS2_GPIO_WRITE_STATUS_FAILURE => 3

/-- Identity of a physical GPIO line of the driver: the clock line device
and pin (scl_gpio, scl_pin) or the data line device and pin
(sda_gpio, sda_pin). -/
inductive ps2_line
  | scl
  | sda
deriving DecidableEq

/-- Pin configuration requested through gpio_pin_configure. -/
inductive pin_conf
  | output_low
  | input
deriving DecidableEq

/-- Observable side effect performed by the embedded code, in program
order: a gpio_pin_set on a physical line, a gpio_pin_configure on a
physical line, the k_sleep guard interval, a k_sem_give on write_lock, a
synchronous callback invocation, or a k_fifo_put of a received byte. -/
inductive ps2_act
  | pin_set (line : ps2_line) (level : Nat)
  | pin_configure (line : ps2_line) (conf : pin_conf)
  | sleep_usec (usec : Nat)
  | sem_give
  | callback_invoke (byte : Nat)
  | fifo_put (byte : Nat)
deriving DecidableEq

/-- Mutable fields of struct ps2_gpio_data.  callback_isr models whether
the callback pointer is non-NULL; data_queue models the contents of the
k_fifo; write_lock models the k_sem count (initial 0, limit 1). -/
structure ps2_gpio_data where
  callback_isr : Bool
  callback_enabled : Bool
  data_queue : List Nat
  mode : ps2_gpio_mode
  cur_read_byte : Nat
  cur_read_pos : Nat
  write_buffer : Nat
  cur_write_pos : Nat
  cur_write_status : ps2_gpio_write_status
  write_lock : Nat
deriving DecidableEq

/-- Errno value EBUSY; k_sem_take with K_NO_WAIT returns -EBUSY when the
semaphore is unavailable. -/
def EBUSY : Int := 16

/-- Result of k_sem_take(sem, K_NO_WAIT) on a semaphore with the given
count: 0 and a decremented count on success, -EBUSY otherwise. -/
def k_sem_take_nowait (count : Nat) : Int × Nat :=
  if 0 < count then (0, count - 1) else (-EBUSY, count)

/-- Effect of k_sem_give on a semaphore with limit 1. -/
def k_sem_give_limit1 (count : Nat) : Nat := min (count + 1) 1

/-- Function ps2_gpio_set_scl from the source: it calls
gpio_pin_set(data.sda_gpio, config.sda_pin, state), so the level is
applied to the data line pin. -/
def ps2_gpio_set_scl (state : Nat) : ps2_act := ps2_act.pin_set ps2_line.sda state

/-- Function ps2_gpio_set_sda from the source: it calls
gpio_pin_set(data.scl_gpio, config.scl_pin, state), so the level is
applied to the clock line pin. -/
def ps2_gpio_set_sda (state : Nat) : ps2_act := ps2_act.pin_set ps2_line.scl state

/-- Number of set bits among bits 0..7, the bits of a uint8_t argument. -/
def popcount8 (b : Nat) : Nat :=
  PS2_GPIO_GET_BIT b 0 + PS2_GPIO_GET_BIT b 1 + PS2_GPIO_GET_BIT b 2 +
  PS2_GPIO_GET_BIT b 3 + PS2_GPIO_GET_BIT b 4 + PS2_GPIO_GET_BIT b 5 +
  PS2_GPIO_GET_BIT b 6 + PS2_GPIO_GET_BIT b 7

/-- GCC __builtin_parity of a uint8_t value: 1 when the number of set
bits is odd, 0 when it is even. -/
def builtin_parity (b : Nat) : Nat := popcount8 b % 2

/-- Function ps2_gpio_check_parity: returns true when the parity bit does
not equal the hardware parity of the byte (PS/2 odd parity). -/
def ps2_gpio_check_parity (byte : Nat) (parity_bit_val : Nat) : Bool :=
  let byte_parity := builtin_parity byte
  if byte_parity == parity_bit_val then false else true

/-- Function ps2_gpio_get_byte_parity: the logical NOT of
__builtin_parity of the byte. -/
def ps2_gpio_get_byte_parity (byte : Nat) : Bool :=
  let byte_parity := builtin_parity byte
  byte_parity == 0

/-- The value of the parity bit sent for a byte, as a 0 or 1 level. -/
def parity_bit (b : Nat) : Nat := if ps2_gpio_get_byte_parity b then 1 else 0

/-- Results of the three fallible gpio_pin_configure calls made during
ps2_gpio_write_byte_async, in program order: SCL to output-low, SDA to
output-low, SCL back to input.  0 means success. -/
structure line_env where
  scl_out_err : Int
  sda_out_err : Int
  scl_in_err : Int
deriving DecidableEq

/-- Environment in which every gpio_pin_configure call succeeds. -/
def env_ok : line_env := ⟨0, 0, 0⟩

/-- The write buffer packed by ps2_gpio_write_byte_async, lines 330-351 of
the source: bit 0 = 0 (start), bits 1-8 = the byte LSB first, bit 9 =
parity, bit 10 = 1 (stop). -/
def ps2_gpio_write_pack (byte : Nat) : Nat :=
  let byte_parity := ps2_gpio_get_byte_parity byte
  let wb : Nat := 0
  let wb := PS2_GPIO_SET_BIT16 wb 0 0
  let wb := PS2_GPIO_SET_BIT16 wb (PS2_GPIO_GET_BIT byte 0) 1
  let wb := PS2_GPIO_SET_BIT16 wb (PS2_GPIO_GET_BIT byte 1) 2
  let wb := PS2_GPIO_SET_BIT16 wb (PS2_GPIO_GET_BIT byte 2) 3
  let wb := PS2_GPIO_SET_BIT16 wb (PS2_GPIO_GET_BIT byte 3) 4
  let wb := PS2_GPIO_SET_BIT16 wb (PS2_GPIO_GET_BIT byte 4) 5
  let wb := PS2_GPIO_SET_BIT16 wb (PS2_GPIO_GET_BIT byte 5) 6
  let wb := PS2_GPIO_SET_BIT16 wb (PS2_GPIO_GET_BIT byte 6) 7
  let wb := PS2_GPIO_SET_BIT16 wb (PS2_GPIO_GET_BIT byte 7) 8
  let wb := PS2_GPIO_SET_BIT16 wb (if byte_parity then 1 else 0) 9
  let wb := PS2_GPIO_SET_BIT16 wb 1 10
  wb

/-- Function ps2_gpio_write_byte_async.  Returns the C return value, the
new driver state and the side effects performed, in program order.  The
take of write_lock tolerates -EBUSY; the buffer is packed, the mode and
write cursor are set, SCL is configured output-low for the 100 microsecond
guard interval, the write status and read state are reset, SDA is
configured output-low (this presents the start bit), the write cursor is
advanced, SCL is released back to input.  Each gpio_pin_configure failure
returns its error immediately. -/
def ps2_gpio_write_byte_async (st : ps2_gpio_data) (env : line_env) (byte : Nat) :
    Int × ps2_gpio_data × List ps2_act :=
  let t := k_sem_take_nowait st.write_lock
  let st := { st with write_lock := t.2 }
  if t.1 ≠ 0 ∧ t.1 ≠ -EBUSY then
    (t.1, st, [])
  else
    let st := { st with write_buffer := ps2_gpio_write_pack byte }
    let st := { st with mode := ps2_gpio_mode.PS2_GPIO_MODE_WRITE,
                        cur_write_pos := PS2_GPIO_POS_START }
    let acts := [ps2_act.pin_configure ps2_line.scl pin_conf.output_low]
    if env.scl_out_err ≠ 0 then
      (env.scl_out_err, st, acts)
    else
      let acts := acts ++ [ps2_act.sleep_usec 100]
      let st := { st with
        cur_write_status := ps2_gpio_write_status.PS2_GPIO_WRITE_STATUS_ACTIVE,
        cur_read_byte := 0,
        cur_read_pos := PS2_GPIO_POS_START }
      let acts := acts ++ [ps2_act.pin_configure ps2_line.sda pin_conf.output_low]
      if env.sda_out_err ≠ 0 then
        (env.sda_out_err, st, acts)
      else
        let st := { st with cur_write_pos := st.cur_write_pos + 1 }
        let acts := acts ++ [ps2_gpio_set_scl 1,
                             ps2_act.pin_configure ps2_line.scl pin_conf.input]
        if env.scl_in_err ≠ 0 then
          (env.scl_in_err, st, acts)
        else
          (0, st, acts)

/-- Function ps2_gpio_send_cmd_resend: a fire-and-forget asynchronous
write of the resend command byte 0xfe; the return value is discarded. -/
def ps2_gpio_send_cmd_resend (st : ps2_gpio_data) (env : line_env) :
    ps2_gpio_data × List ps2_act :=
  let r := ps2_gpio_write_byte_async st env 0xfe
  (r.2.1, r.2.2)

/-- Function ps2_gpio_abort_read: issue the resend command, then reset
the read cursor and accumulator. -/
def ps2_gpio_abort_read (st : ps2_gpio_data) (env : line_env) :
    ps2_gpio_data × List ps2_act :=
  let r := ps2_gpio_send_cmd_resend st env
  ({ r.1 with cur_read_pos := PS2_GPIO_POS_START, cur_read_byte := 0 }, r.2)

/-- Function ps2_gpio_process_received_byte: invoke the callback when one
is registered and enabled, otherwise put the byte on the fifo queue. -/
def ps2_gpio_process_received_byte (st : ps2_gpio_data) (byte : Nat) :
    ps2_gpio_data × List ps2_act :=
  if st.callback_isr && st.callback_enabled then
    (st, [ps2_act.callback_invoke byte])
  else
    ({ st with data_queue := st.data_queue ++ [byte] }, [ps2_act.fifo_put byte])

/-- Function ps2_gpio_scl_interrupt_handler_read, one clock edge in read
mode with the sampled SDA level. -/
def ps2_gpio_scl_interrupt_handler_read (st : ps2_gpio_data) (env : line_env)
    (sda_val : Nat) : ps2_gpio_data × List ps2_act :=
  if st.cur_read_pos = PS2_GPIO_POS_START then
    if sda_val ≠ 0 then
      ps2_gpio_abort_read st env
    else
      ({ st with cur_read_pos := st.cur_read_pos + 1 }, [])
  else if st.cur_read_pos = PS2_GPIO_POS_PARITY then
    if ps2_gpio_check_parity st.cur_read_byte sda_val ≠ true then
      ps2_gpio_abort_read st env
    else
      ({ st with cur_read_pos := st.cur_read_pos + 1 }, [])
  else if st.cur_read_pos = PS2_GPIO_POS_STOP then
    if sda_val ≠ 1 then
      ps2_gpio_abort_read st env
    else
      let r := ps2_gpio_process_received_byte st st.cur_read_byte
      ({ r.1 with cur_read_pos := PS2_GPIO_POS_START, cur_read_byte := 0 }, r.2)
  else
    let bit_pos := st.cur_read_pos - 1
    ({ st with cur_read_byte := PS2_GPIO_SET_BIT8 st.cur_read_byte sda_val bit_pos,
               cur_read_pos := st.cur_read_pos + 1 }, [])

/-- Function ps2_gpio_scl_interrupt_handler_write_send_bit: drive the bit
of write_buffer at cur_write_pos through ps2_gpio_set_sda. -/
def ps2_gpio_scl_interrupt_handler_write_send_bit (st : ps2_gpio_data) : List ps2_act :=
  let data_bit := PS2_GPIO_GET_BIT st.write_buffer st.cur_write_pos
  [ps2_gpio_set_sda data_bit]

/-- Function ps2_gpio_scl_interrupt_handler_write_check_ack with the
sampled SDA level: set the write status from the acknowledgment bit,
reset mode, buffer and write cursor, give the semaphore back. -/
def ps2_gpio_scl_interrupt_handler_write_check_ack (st : ps2_gpio_data)
    (ack_val : Nat) : ps2_gpio_data × List ps2_act :=
  let st :=
    if ack_val = 0 then
      { st with cur_write_status := ps2_gpio_write_status.PS2_GPIO_WRITE_STATUS_SUCCESS }
    else
      { st with cur_write_status := ps2_gpio_write_status.PS2_GPIO_WRITE_STATUS_FAILURE }
  let st := { st with mode := ps2_gpio_mode.PS2_GPIO_MODE_READ,
                      write_buffer := 0,
                      cur_write_pos := PS2_GPIO_POS_START }
  ({ st with write_lock := k_sem_give_limit1 st.write_lock }, [ps2_act.sem_give])

/-- Function ps2_gpio_scl_interrupt_handler_write, one clock edge in
write mode with the sampled SDA level.  The start position is ignored
(already sent during initiation, early return without increment); the
stop position sends the bit then configures SDA back to input; the ack
position runs the acknowledgment check; every non-start branch falls
through to the shared cursor increment at the end of the C function. -/
def ps2_gpio_scl_interrupt_handler_write (st : ps2_gpio_data) (sda_val : Nat) :
    ps2_gpio_data × List ps2_act :=
  if st.cur_write_pos = PS2_GPIO_POS_START then
    (st, [])
  else if st.cur_write_pos = PS2_GPIO_POS_STOP then
    let acts := ps2_gpio_scl_interrupt_handler_write_send_bit st
    let acts := acts ++ [ps2_act.pin_configure ps2_line.sda pin_conf.input]
    ({ st with cur_write_pos := st.cur_write_pos + 1 }, acts)
  else if st.cur_write_pos = PS2_GPIO_POS_ACK then
    let r := ps2_gpio_scl_interrupt_handler_write_check_ack st sda_val
    ({ r.1 with cur_write_pos := r.1.cur_write_pos + 1 }, r.2)
  else
    let acts := ps2_gpio_scl_interrupt_handler_write_send_bit st
    ({ st with cur_write_pos := st.cur_write_pos + 1 }, acts)

/-- Function ps2_gpio_scl_interrupt_handler: dispatch one clock edge by
the current mode. -/
def ps2_gpio_scl_interrupt_handler (st : ps2_gpio_data) (env : line_env)
    (sda_val : Nat) : ps2_gpio_data × List ps2_act :=
  if st.mode = ps2_gpio_mode.PS2_GPIO_MODE_READ then
    ps2_gpio_scl_interrupt_handler_read st env sda_val
  else
    ps2_gpio_scl_interrupt_handler_write st sda_val

/-- The tail of ps2_gpio_write_byte_blocking after ps2_gpio_write_byte_async
succeeded, lines 287-306 of the source: take_err is the result of
k_sem_take(write_lock, K_MSEC(500)) and status the cur_write_status
observed after the take returns.  On a take error the function returns it
with the status untouched; otherwise it returns 0 for a SUCCESS status
and minus the numeric status for any other, and resets the status to
INACTIVE. -/
def ps2_gpio_write_byte_blocking_after_wait (take_err : Int)
    (status : ps2_gpio_write_status) : Int × ps2_gpio_write_status :=
  if take_err ≠ 0 then
    (take_err, status)
  else
    let err := if status = ps2_gpio_write_status.PS2_GPIO_WRITE_STATUS_SUCCESS then
                 0
               else
                 -status.toInt
    (err, ps2_gpio_write_status.PS2_GPIO_WRITE_STATUS_INACTIVE)

/-- Function ps2_gpio_empty_data_queue: k_fifo_get until empty. -/
def ps2_gpio_empty_data_queue (st : ps2_gpio_data) : ps2_gpio_data :=
  { st with data_queue := [] }

/-- Function ps2_gpio_disable_callback: drain the queue, then clear the
enabled flag. -/
def ps2_gpio_disable_callback (st : ps2_gpio_data) : ps2_gpio_data × Int :=
  let st := ps2_gpio_empty_data_queue st
  ({ st with callback_enabled := false }, 0)

/-- Function ps2_gpio_enable_callback: set the enabled flag, then drain
the queue. -/
def ps2_gpio_enable_callback (st : ps2_gpio_data) : ps2_gpio_data × Int :=
  let st := { st with callback_enabled := true }
  (ps2_gpio_empty_data_queue st, 0)

/-- Run the clock edge handler over a list of sampled SDA levels,
accumulating the side effects in order. -/
def ps2_run_edges (st : ps2_gpio_data) (env : line_env) (inputs : List Nat) :
    ps2_gpio_data × List ps2_act :=
  inputs.foldl
    (fun acc sda_val =>
      let r := ps2_gpio_scl_interrupt_handler acc.1 env sda_val
      (r.1, acc.2 ++ r.2))
    (st, [])

/-- Bytes handed to the delivery sink (callback or fifo queue) within a
list of side effects, in order. -/
def delivered_bytes : List ps2_act → List Nat
  | [] => []
  | ps2_act.callback_invoke b :: rest => b :: delivered_bytes rest
  | ps2_act.fifo_put b :: rest => b :: delivered_bytes rest
  | _ :: rest => delivered_bytes rest

/-- The sampled SDA levels of a correctly framed received byte: start 0,
the eight data bits LSB first, the parity bit, stop 1. -/
def read_frame_edges (b : Nat) : List Nat :=
  [0, PS2_GPIO_GET_BIT b 0, PS2_GPIO_GET_BIT b 1, PS2_GPIO_GET_BIT b 2,
   PS2_GPIO_GET_BIT b 3, PS2_GPIO_GET_BIT b 4, PS2_GPIO_GET_BIT b 5,
   PS2_GPIO_GET_BIT b 6, PS2_GPIO_GET_BIT b 7, parity_bit b, 1]

/-- Driver state right after ps2_gpio_init: read mode, cursors at the
start position, empty queue, semaphore count 0, callback configuration as
given. -/
def read_idle_state (cb en : Bool) : ps2_gpio_data :=
  { callback_isr := cb
    callback_enabled := en
    data_queue := []
    mode := ps2_gpio_mode.PS2_GPIO_MODE_READ
    cur_read_byte := 0
    cur_read_pos := 0
    write_buffer := 0
    cur_write_pos := 0
    cur_write_status := ps2_gpio_write_status.PS2_GPIO_WRITE_STATUS_INACTIVE
    write_lock := 0 }

/-- A state with a write transaction in flight for byte 0x45: write mode,
three bits already clocked out, the admission semaphore unavailable. -/
def st_inflight : ps2_gpio_data :=
  { callback_isr := false
    callback_enabled := false
    data_queue := []
    mode := ps2_gpio_mode.PS2_GPIO_MODE_WRITE
    cur_read_byte := 0
    cur_read_pos := 0
    write_buffer := ps2_gpio_write_pack 0x45
    cur_write_pos := 3
    cur_write_status := ps2_gpio_write_status.PS2_GPIO_WRITE_STATUS_ACTIVE
    write_lock := 0 }

/-- A write transaction for byte 0x45 that has reached the acknowledgment
position. -/
def st_ack : ps2_gpio_data :=
  { st_inflight with cur_write_pos := 11 }

/-- A write transaction for byte 0xff whose cursor is at the first data
bit. -/
def st_data_bit1 : ps2_gpio_data :=
  { st_inflight with write_buffer := ps2_gpio_write_pack 0xff, cur_write_pos := 1 }

/-- A read-idle state with a registered but disabled callback and two
stale bytes in the queue. -/
def st_queued : ps2_gpio_data :=
  { read_idle_state true false with data_queue := [1, 2] }

/-!
Helper lemmas shared by several claim proofs.
-/

/-- The guard on the non-blocking semaphore take in
ps2_gpio_write_byte_async never fires: the take either succeeds or
reports EBUSY, and EBUSY is tolerated by the source. -/
theorem k_sem_take_guard_false (c : Nat) :
    ((k_sem_take_nowait c).1 ≠ 0 ∧ (k_sem_take_nowait c).1 ≠ -EBUSY) ↔ False := by
  by_cases h : 0 < c <;> simp [k_sem_take_nowait, h, EBUSY]

/-- The write-mode edge handler never modifies the read cursor or the
read accumulator, whichever branch it takes. -/
theorem write_handler_preserves_read_state (st : ps2_gpio_data) (sda_val : Nat) :
    (ps2_gpio_scl_interrupt_handler_write st sda_val).1.cur_read_pos = st.cur_read_pos ∧
    (ps2_gpio_scl_interrupt_handler_write st sda_val).1.cur_read_byte = st.cur_read_byte := by
  by_cases h0 : st.cur_write_pos = PS2_GPIO_POS_START
  · simp [ps2_gpio_scl_interrupt_handler_write, h0]
  · by_cases h10 : st.cur_write_pos = PS2_GPIO_POS_STOP
    · simp [ps2_gpio_scl_interrupt_handler_write, h0, h10,
            PS2_GPIO_POS_START, PS2_GPIO_POS_STOP]
    · by_cases h11 : st.cur_write_pos = PS2_GPIO_POS_ACK
      · by_cases ha : sda_val = 0 <;>
          simp [ps2_gpio_scl_interrupt_handler_write, h0, h10, h11, ha,
                ps2_gpio_scl_interrupt_handler_write_check_ack,
                PS2_GPIO_POS_START, PS2_GPIO_POS_STOP, PS2_GPIO_POS_ACK]
      · simp [ps2_gpio_scl_interrupt_handler_write, h0, h10, h11]

/-!
Claim theorems.
-/

/-- Claim C1: at write positions 1 through 9 the transmit handler picks
the bit of write_buffer at the current write cursor, advances the cursor
by one, and performs exactly one gpio_pin_set with that bit as the level.
The theorem records where that level goes in the source: ps2_gpio_set_sda
calls gpio_pin_set on scl_gpio and scl_pin, so the level is applied to
the clock line pin, not the data line pin, contradicting the claim, the
function name and its own log message. -/
theorem claim_C1_send_bit_targets_clock_line (st : ps2_gpio_data) (env : line_env)
    (sda_val : Nat) (hm : st.mode = ps2_gpio_mode.PS2_GPIO_MODE_WRITE)
    (h1 : 1 ≤ st.cur_write_pos) (h9 : st.cur_write_pos ≤ 9) :
    ps2_gpio_scl_interrupt_handler st env sda_val =
      ({ st with cur_write_pos := st.cur_write_pos + 1 },
       [ps2_act.pin_set ps2_line.scl
          (PS2_GPIO_GET_BIT st.write_buffer st.cur_write_pos)]) := by
  have h0 : ¬ st.cur_write_pos = PS2_GPIO_POS_START := by
    simp only [PS2_GPIO_POS_START]; omega
  have hs : ¬ st.cur_write_pos = PS2_GPIO_POS_STOP := by
    simp only [PS2_GPIO_POS_STOP]; omega
  have ha : ¬ st.cur_write_pos = PS2_GPIO_POS_ACK := by
    simp only [PS2_GPIO_POS_ACK]; omega
  simp [ps2_gpio_scl_interrupt_handler, hm, ps2_gpio_scl_interrupt_handler_write,
        h0, hs, ha, ps2_gpio_scl_interrupt_handler_write_send_bit, ps2_gpio_set_sda]

/-- Witness for claim C1 at a concrete input: write mode, cursor at the
first data bit of the frame for byte 0xff; the emitted level 1 is applied
to the clock line pin. -/
theorem claim_C1_witness :
    st_data_bit1.mode = ps2_gpio_mode.PS2_GPIO_MODE_WRITE ∧
    ps2_gpio_scl_interrupt_handler st_data_bit1 env_ok 0 =
      ({ st_data_bit1 with cur_write_pos := st_data_bit1.cur_write_pos + 1 },
       [ps2_act.pin_set ps2_line.scl
          (PS2_GPIO_GET_BIT st_data_bit1.write_buffer st_data_bit1.cur_write_pos)]) :=
  ⟨rfl, claim_C1_send_bit_targets_clock_line st_data_bit1 env_ok 0 rfl (by decide) (by decide)⟩

/-- Counterexample to claim C2: with a write transaction already in
flight (admission semaphore unavailable), a second asynchronous write
request returns 0, not an already-active rejection, and it packs a fresh
buffer and starts a new transaction. -/
theorem claim_C2_counterexample :
    (ps2_gpio_write_byte_async st_inflight env_ok 0x12).1 = 0 ∧
    (ps2_gpio_write_byte_async st_inflight env_ok 0x12).2.1.write_buffer =
      ps2_gpio_write_pack 0x12 ∧
    (ps2_gpio_write_byte_async st_inflight env_ok 0x12).2.1.mode =
      ps2_gpio_mode.PS2_GPIO_MODE_WRITE ∧
    (ps2_gpio_write_byte_async st_inflight env_ok 0x12).2.1.cur_write_pos = 1 ∧
    (ps2_gpio_write_byte_async st_inflight env_ok 0x12).2.1.cur_write_status =
      ps2_gpio_write_status.PS2_GPIO_WRITE_STATUS_ACTIVE := by decide

/-- Claim C2 as amended: when the admission semaphore is unavailable the
non-blocking take fails as already held, the failure is tolerated, and
the request proceeds to pack a new buffer and start a new transaction,
returning success. -/
theorem claim_C2_amended_busy_tolerated (st : ps2_gpio_data) (byte : Nat)
    (hheld : st.write_lock = 0) :
    (ps2_gpio_write_byte_async st env_ok byte).1 = 0 ∧
    (ps2_gpio_write_byte_async st env_ok byte).2.1.mode =
      ps2_gpio_mode.PS2_GPIO_MODE_WRITE ∧
    (ps2_gpio_write_byte_async st env_ok byte).2.1.write_buffer =
      ps2_gpio_write_pack byte ∧
    (ps2_gpio_write_byte_async st env_ok byte).2.1.cur_write_pos =
      PS2_GPIO_POS_START + 1 ∧
    (ps2_gpio_write_byte_async st env_ok byte).2.1.cur_write_status =
      ps2_gpio_write_status.PS2_GPIO_WRITE_STATUS_ACTIVE := by
  simp [ps2_gpio_write_byte_async, k_sem_take_nowait, hheld, env_ok, EBUSY]

/-- Witness for the amended claim C2 at a concrete in-flight state. -/
theorem claim_C2_witness :
    (ps2_gpio_write_byte_async st_inflight env_ok 0x4f).1 = 0 ∧
    (ps2_gpio_write_byte_async st_inflight env_ok 0x4f).2.1.mode =
      ps2_gpio_mode.PS2_GPIO_MODE_WRITE ∧
    (ps2_gpio_write_byte_async st_inflight env_ok 0x4f).2.1.write_buffer =
      ps2_gpio_write_pack 0x4f ∧
    (ps2_gpio_write_byte_async st_inflight env_ok 0x4f).2.1.cur_write_pos =
      PS2_GPIO_POS_START + 1 ∧
    (ps2_gpio_write_byte_async st_inflight env_ok 0x4f).2.1.cur_write_status =
      ps2_gpio_write_status.PS2_GPIO_WRITE_STATUS_ACTIVE :=
  claim_C2_amended_busy_tolerated st_inflight 0x4f rfl

/-- Counterexample to claim C3: after the clock edge at the
acknowledgment position with a 0 acknowledgment, the status, mode and
buffer are as claimed, but the write cursor does not equal the start
position: the dispatcher increments it after the acknowledgment handler
reset it. -/
theorem claim_C3_counterexample :
    (ps2_gpio_scl_interrupt_handler st_ack env_ok 0).1.cur_write_status =
      ps2_gpio_write_status.PS2_GPIO_WRITE_STATUS_SUCCESS ∧
    (ps2_gpio_scl_interrupt_handler st_ack env_ok 0).1.mode =
      ps2_gpio_mode.PS2_GPIO_MODE_READ ∧
    ¬ (ps2_gpio_scl_interrupt_handler st_ack env_ok 0).1.cur_write_pos =
      PS2_GPIO_POS_START := by decide

/-- Claim C3 as amended: after the acknowledgment edge the status is
SUCCESS for a sampled 0 and FAILURE for any other value, the mode is
read, the buffer is cleared, the semaphore is released exactly once, and
the write cursor equals the start position plus one. -/
theorem claim_C3_amended_ack_edge (st : ps2_gpio_data) (env : line_env) (ack_val : Nat)
    (hm : st.mode = ps2_gpio_mode.PS2_GPIO_MODE_WRITE)
    (hp : st.cur_write_pos = PS2_GPIO_POS_ACK)
    (hl : st.write_lock = 0) :
    (ps2_gpio_scl_interrupt_handler st env ack_val).1.cur_write_status =
      (if ack_val = 0 then ps2_gpio_write_status.PS2_GPIO_WRITE_STATUS_SUCCESS
       else ps2_gpio_write_status.PS2_GPIO_WRITE_STATUS_FAILURE) ∧
    (ps2_gpio_scl_interrupt_handler st env ack_val).1.mode =
      ps2_gpio_mode.PS2_GPIO_MODE_READ ∧
    (ps2_gpio_scl_interrupt_handler st env ack_val).1.write_buffer = 0 ∧
    (ps2_gpio_scl_interrupt_handler st env ack_val).1.cur_write_pos =
      PS2_GPIO_POS_START + 1 ∧
    (ps2_gpio_scl_interrupt_handler st env ack_val).1.write_lock = 1 ∧
    (ps2_gpio_scl_interrupt_handler st env ack_val).2 = [ps2_act.sem_give] := by
  by_cases hack : ack_val = 0 <;>
    simp [ps2_gpio_scl_interrupt_handler, hm, ps2_gpio_scl_interrupt_handler_write,
          hp, PS2_GPIO_POS_START, PS2_GPIO_POS_STOP, PS2_GPIO_POS_ACK,
          ps2_gpio_scl_interrupt_handler_write_check_ack, hack,
          k_sem_give_limit1, hl]

/-- Witness for the amended claim C3 at a concrete acknowledgment edge. -/
theorem claim_C3_witness :
    (ps2_gpio_scl_interrupt_handler st_ack env_ok 0).1.cur_write_status =
      (if (0 : Nat) = 0 then ps2_gpio_write_status.PS2_GPIO_WRITE_STATUS_SUCCESS
       else ps2_gpio_write_status.PS2_GPIO_WRITE_STATUS_FAILURE) ∧
    (ps2_gpio_scl_interrupt_handler st_ack env_ok 0).1.mode =
      ps2_gpio_mode.PS2_GPIO_MODE_READ ∧
    (ps2_gpio_scl_interrupt_handler st_ack env_ok 0).1.write_buffer = 0 ∧
    (ps2_gpio_scl_interrupt_handler st_ack env_ok 0).1.cur_write_pos =
      PS2_GPIO_POS_START + 1 ∧
    (ps2_gpio_scl_interrupt_handler st_ack env_ok 0).1.write_lock = 1 ∧
    (ps2_gpio_scl_interrupt_handler st_ack env_ok 0).2 = [ps2_act.sem_give] :=
  claim_C3_amended_ack_edge st_ack env_ok 0 rfl rfl rfl

/-- Counterexample to claim C4: when the first line-configuration call of
write initiation fails, the error is returned, but the state is not
returned to the read baseline: the mode is left as write. -/
theorem claim_C4_counterexample :
    (ps2_gpio_write_byte_async (read_idle_state false false) ⟨-5, 0, 0⟩ 0x45).1 = -5 ∧
    (ps2_gpio_write_byte_async (read_idle_state false false) ⟨-5, 0, 0⟩ 0x45).2.1.mode =
      ps2_gpio_mode.PS2_GPIO_MODE_WRITE := by decide

/-- Claim C4 as amended: whichever of the three line-configuration calls
fails during asynchronous write initiation, the error is returned to the
caller, but the shared state stays mid-transaction: the mode remains
write and the write cursor keeps the value initiation had set. -/
theorem claim_C4_amended_error_leaves_write_mode (st : ps2_gpio_data) (byte : Nat)
    (e : Int) (he : e ≠ 0) :
    ((ps2_gpio_write_byte_async st ⟨e, 0, 0⟩ byte).1 = e ∧
     (ps2_gpio_write_byte_async st ⟨e, 0, 0⟩ byte).2.1.mode =
       ps2_gpio_mode.PS2_GPIO_MODE_WRITE ∧
     (ps2_gpio_write_byte_async st ⟨e, 0, 0⟩ byte).2.1.cur_write_pos =
       PS2_GPIO_POS_START) ∧
    ((ps2_gpio_write_byte_async st ⟨0, e, 0⟩ byte).1 = e ∧
     (ps2_gpio_write_byte_async st ⟨0, e, 0⟩ byte).2.1.mode =
       ps2_gpio_mode.PS2_GPIO_MODE_WRITE ∧
     (ps2_gpio_write_byte_async st ⟨0, e, 0⟩ byte).2.1.cur_write_pos =
       PS2_GPIO_POS_START ∧
     (ps2_gpio_write_byte_async st ⟨0, e, 0⟩ byte).2.1.cur_read_pos =
       PS2_GPIO_POS_START) ∧
    ((ps2_gpio_write_byte_async st ⟨0, 0, e⟩ byte).1 = e ∧
     (ps2_gpio_write_byte_async st ⟨0, 0, e⟩ byte).2.1.mode =
       ps2_gpio_mode.PS2_GPIO_MODE_WRITE ∧
     (ps2_gpio_write_byte_async st ⟨0, 0, e⟩ byte).2.1.cur_write_pos =
       PS2_GPIO_POS_START + 1) := by
  by_cases hl : 0 < st.write_lock <;>
    simp [ps2_gpio_write_byte_async, k_sem_take_nowait, hl, he, EBUSY]

/-- Witness for the amended claim C4 at a concrete idle state and a
concrete error code. -/
theorem claim_C4_witness :
    ((ps2_gpio_write_byte_async (read_idle_state false false) ⟨-5, 0, 0⟩ 0x45).1 = -5 ∧
     (ps2_gpio_write_byte_async (read_idle_state false false) ⟨-5, 0, 0⟩ 0x45).2.1.mode =
       ps2_gpio_mode.PS2_GPIO_MODE_WRITE ∧
     (ps2_gpio_write_byte_async (read_idle_state false false) ⟨-5, 0, 0⟩ 0x45).2.1.cur_write_pos =
       PS2_GPIO_POS_START) ∧
    ((ps2_gpio_write_byte_async (read_idle_state false false) ⟨0, -5, 0⟩ 0x45).1 = -5 ∧
     (ps2_gpio_write_byte_async (read_idle_state false false) ⟨0, -5, 0⟩ 0x45).2.1.mode =
       ps2_gpio_mode.PS2_GPIO_MODE_WRITE ∧
     (ps2_gpio_write_byte_async (read_idle_state false false) ⟨0, -5, 0⟩ 0x45).2.1.cur_write_pos =
       PS2_GPIO_POS_START ∧
     (ps2_gpio_write_byte_async (read_idle_state false false) ⟨0, -5, 0⟩ 0x45).2.1.cur_read_pos =
       PS2_GPIO_POS_START) ∧
    ((ps2_gpio_write_byte_async (read_idle_state false false) ⟨0, 0, -5⟩ 0x45).1 = -5 ∧
     (ps2_gpio_write_byte_async (read_idle_state false false) ⟨0, 0, -5⟩ 0x45).2.1.mode =
       ps2_gpio_mode.PS2_GPIO_MODE_WRITE ∧
     (ps2_gpio_write_byte_async (read_idle_state false false) ⟨0, 0, -5⟩ 0x45).2.1.cur_write_pos =
       PS2_GPIO_POS_START + 1) :=
  claim_C4_amended_error_leaves_write_mode (read_idle_state false false) 0x45 (-5) (by decide)

set_option maxRecDepth 100000 in
set_option maxHeartbeats 1000000 in
/-- Claim C5: from the idle read state, feeding the edge sequence of a
correctly framed byte b (start 0, data bits LSB first, parity, stop 1)
delivers exactly the byte b once to the delivery sink, whatever the
callback configuration, and leaves the read cursor and accumulator at 0. -/
theorem claim_C5_receive_happy_path :
    ∀ b < 256, ∀ (cb en : Bool),
      delivered_bytes
        (ps2_run_edges (read_idle_state cb en) env_ok (read_frame_edges b)).2 = [b] ∧
      (ps2_run_edges (read_idle_state cb en) env_ok (read_frame_edges b)).1.cur_read_pos = 0 ∧
      (ps2_run_edges (read_idle_state cb en) env_ok (read_frame_edges b)).1.cur_read_byte = 0 := by
  decide

/-- Witness for claim C5 at byte 0x45 with the callback registered and
enabled. -/
theorem claim_C5_witness :
    delivered_bytes
      (ps2_run_edges (read_idle_state true true) env_ok (read_frame_edges 0x45)).2 = [0x45] ∧
    (ps2_run_edges (read_idle_state true true) env_ok (read_frame_edges 0x45)).1.cur_read_pos = 0 ∧
    (ps2_run_edges (read_idle_state true true) env_ok (read_frame_edges 0x45)).1.cur_read_byte = 0 :=
  claim_C5_receive_happy_path 0x45 (by decide) true true

/-- Claim C6: on any receive validation failure (bad start bit at cursor
0, bad parity at cursor 9, bad stop bit at cursor 10) the read cursor and
accumulator end reset to the initial state, no byte is delivered to the
consumer, the cursor has not advanced, and a resend command has been
issued as a fire-and-forget asynchronous write of the resend byte 0xfe:
the resulting state carries an in-flight write of the packed 0xfe frame. -/
theorem claim_C6_abort_resets_and_resends (st : ps2_gpio_data) (sda_val : Nat)
    (hm : st.mode = ps2_gpio_mode.PS2_GPIO_MODE_READ)
    (hfail :
      (st.cur_read_pos = PS2_GPIO_POS_START ∧ sda_val ≠ 0) ∨
      (st.cur_read_pos = PS2_GPIO_POS_PARITY ∧
        ps2_gpio_check_parity st.cur_read_byte sda_val = false) ∨
      (st.cur_read_pos = PS2_GPIO_POS_STOP ∧ sda_val ≠ 1)) :
    (ps2_gpio_scl_interrupt_handler st env_ok sda_val).1.cur_read_pos = 0 ∧
    (ps2_gpio_scl_interrupt_handler st env_ok sda_val).1.cur_read_byte = 0 ∧
    delivered_bytes (ps2_gpio_scl_interrupt_handler st env_ok sda_val).2 = [] ∧
    (ps2_gpio_scl_interrupt_handler st env_ok sda_val).1.mode =
      ps2_gpio_mode.PS2_GPIO_MODE_WRITE ∧
    (ps2_gpio_scl_interrupt_handler st env_ok sda_val).1.write_buffer =
      ps2_gpio_write_pack 0xfe ∧
    (ps2_gpio_scl_interrupt_handler st env_ok sda_val).1.cur_write_status =
      ps2_gpio_write_status.PS2_GPIO_WRITE_STATUS_ACTIVE ∧
    (ps2_gpio_scl_interrupt_handler st env_ok sda_val).1.cur_write_pos = 1 := by
  have habort : ps2_gpio_scl_interrupt_handler st env_ok sda_val =
      ps2_gpio_abort_read st env_ok := by
    rcases hfail with ⟨hpos, hv⟩ | ⟨hpos, hv⟩ | ⟨hpos, hv⟩ <;>
      simp [ps2_gpio_scl_interrupt_handler, hm, ps2_gpio_scl_interrupt_handler_read,
            hpos, hv, PS2_GPIO_POS_START, PS2_GPIO_POS_PARITY, PS2_GPIO_POS_STOP]
  rw [habort]
  by_cases hl : 0 < st.write_lock <;>
    simp [ps2_gpio_abort_read, ps2_gpio_send_cmd_resend, ps2_gpio_write_byte_async,
          k_sem_take_nowait, hl, env_ok, EBUSY, delivered_bytes,
          ps2_gpio_set_scl, PS2_GPIO_POS_START]

/-- Witness for claim C6 at a concrete bad start bit. -/
theorem claim_C6_witness :
    (ps2_gpio_scl_interrupt_handler (read_idle_state false false) env_ok 1).1.cur_read_pos = 0 ∧
    (ps2_gpio_scl_interrupt_handler (read_idle_state false false) env_ok 1).1.cur_read_byte = 0 ∧
    delivered_bytes (ps2_gpio_scl_interrupt_handler (read_idle_state false false) env_ok 1).2 = [] ∧
    (ps2_gpio_scl_interrupt_handler (read_idle_state false false) env_ok 1).1.mode =
      ps2_gpio_mode.PS2_GPIO_MODE_WRITE ∧
    (ps2_gpio_scl_interrupt_handler (read_idle_state false false) env_ok 1).1.write_buffer =
      ps2_gpio_write_pack 0xfe ∧
    (ps2_gpio_scl_interrupt_handler (read_idle_state false false) env_ok 1).1.cur_write_status =
      ps2_gpio_write_status.PS2_GPIO_WRITE_STATUS_ACTIVE ∧
    (ps2_gpio_scl_interrupt_handler (read_idle_state false false) env_ok 1).1.cur_write_pos = 1 :=
  claim_C6_abort_resets_and_resends (read_idle_state false false) 1 rfl
    (Or.inl ⟨rfl, by decide⟩)

set_option maxRecDepth 10000 in
/-- Claim C7: for every byte, validating against its own parity bit
succeeds, validating against the flipped parity bit fails, and the parity
bit is the logical NOT of the popcount parity of the byte (1 when the
popcount is even, 0 when odd). -/
theorem claim_C7_parity_round_trip :
    ∀ b < 256,
      ps2_gpio_check_parity b (parity_bit b) = true ∧
      ps2_gpio_check_parity b (1 - parity_bit b) = false ∧
      parity_bit b = (if popcount8 b % 2 = 0 then 1 else 0) := by
  decide

/-- Witness for claim C7 at byte 0x45. -/
theorem claim_C7_witness :
    ps2_gpio_check_parity 0x45 (parity_bit 0x45) = true ∧
    ps2_gpio_check_parity 0x45 (1 - parity_bit 0x45) = false ∧
    parity_bit 0x45 = (if popcount8 0x45 % 2 = 0 then 1 else 0) :=
  claim_C7_parity_round_trip 0x45 (by decide)

/-- Claim C8: in the blocking write, a timed-out wait returns the take
error with the status untouched; waking with a SUCCESS status returns 0
and resets the status to INACTIVE; waking with any other status that the
sole release point can produce returns minus that status (a nonzero
error carrying it) and resets the status to INACTIVE.  The last conjunct
shows the acknowledgment handler, the sole release point of the
semaphore, never leaves the status INACTIVE, so the wake statuses are
covered. -/
theorem claim_C8_blocking_write_outcomes (take_err : Int)
    (status : ps2_gpio_write_status) :
    (take_err ≠ 0 →
      ps2_gpio_write_byte_blocking_after_wait take_err status = (take_err, status)) ∧
    (ps2_gpio_write_byte_blocking_after_wait 0
        ps2_gpio_write_status.PS2_GPIO_WRITE_STATUS_SUCCESS =
      (0, ps2_gpio_write_status.PS2_GPIO_WRITE_STATUS_INACTIVE)) ∧
    (status ≠ ps2_gpio_write_status.PS2_GPIO_WRITE_STATUS_SUCCESS →
     status ≠ ps2_gpio_write_status.PS2_GPIO_WRITE_STATUS_INACTIVE →
      ps2_gpio_write_byte_blocking_after_wait 0 status =
        (-status.toInt, ps2_gpio_write_status.PS2_GPIO_WRITE_STATUS_INACTIVE) ∧
      -status.toInt ≠ 0) ∧
    (∀ (st : ps2_gpio_data) (ack_val : Nat),
      (ps2_gpio_scl_interrupt_handler_write_check_ack st ack_val).1.cur_write_status ≠
        ps2_gpio_write_status.PS2_GPIO_WRITE_STATUS_INACTIVE) := by
  refine ⟨?_, ?_, ?_, ?_⟩
  · intro h
    simp [ps2_gpio_write_byte_blocking_after_wait, h]
  · simp [ps2_gpio_write_byte_blocking_after_wait]
  · intro h1 h2
    cases status <;>
      simp_all [ps2_gpio_write_byte_blocking_after_wait, ps2_gpio_write_status.toInt]
  · intro st ack_val
    by_cases h : ack_val = 0 <;>
      simp [ps2_gpio_scl_interrupt_handler_write_check_ack, h]

/-- Witness for claim C8: a concrete timeout with status left as-is, and
a concrete FAILURE wake returning the nonzero error carrying it. -/
theorem claim_C8_witness :
    ps2_gpio_write_byte_blocking_after_wait (-11)
        ps2_gpio_write_status.PS2_GPIO_WRITE_STATUS_FAILURE =
      (-11, ps2_gpio_write_status.PS2_GPIO_WRITE_STATUS_FAILURE) ∧
    (ps2_gpio_write_byte_blocking_after_wait 0
        ps2_gpio_write_status.PS2_GPIO_WRITE_STATUS_FAILURE =
      (-ps2_gpio_write_status.PS2_GPIO_WRITE_STATUS_FAILURE.toInt,
       ps2_gpio_write_status.PS2_GPIO_WRITE_STATUS_INACTIVE) ∧
     -ps2_gpio_write_status.PS2_GPIO_WRITE_STATUS_FAILURE.toInt ≠ 0) :=
  ⟨(claim_C8_blocking_write_outcomes (-11)
      ps2_gpio_write_status.PS2_GPIO_WRITE_STATUS_FAILURE).1 (by decide),
   (claim_C8_blocking_write_outcomes 0
      ps2_gpio_write_status.PS2_GPIO_WRITE_STATUS_FAILURE).2.2.1 (by decide) (by decide)⟩

/-- Claim C9: the dispatcher routes every clock edge by the current mode:
in write mode the edge is handled by the transmit logic and read cursor
and accumulator are untouched; in read mode it is handled by the receive
logic and never by the transmit logic. -/
theorem claim_C9_dispatch_by_mode (st : ps2_gpio_data) (env : line_env) (sda_val : Nat) :
    (st.mode = ps2_gpio_mode.PS2_GPIO_MODE_WRITE →
      ps2_gpio_scl_interrupt_handler st env sda_val =
        ps2_gpio_scl_interrupt_handler_write st sda_val ∧
      (ps2_gpio_scl_interrupt_handler st env sda_val).1.cur_read_pos = st.cur_read_pos ∧
      (ps2_gpio_scl_interrupt_handler st env sda_val).1.cur_read_byte = st.cur_read_byte) ∧
    (st.mode = ps2_gpio_mode.PS2_GPIO_MODE_READ →
      ps2_gpio_scl_interrupt_handler st env sda_val =
        ps2_gpio_scl_interrupt_handler_read st env sda_val) := by
  constructor
  · intro hm
    have hd : ps2_gpio_scl_interrupt_handler st env sda_val =
        ps2_gpio_scl_interrupt_handler_write st sda_val := by
      simp [ps2_gpio_scl_interrupt_handler, hm]
    rw [hd]
    exact ⟨rfl, (write_handler_preserves_read_state st sda_val).1,
           (write_handler_preserves_read_state st sda_val).2⟩
  · intro hm
    simp [ps2_gpio_scl_interrupt_handler, hm]

/-- Witness for claim C9: a concrete write-mode edge and a concrete
read-mode edge. -/
theorem claim_C9_witness :
    (ps2_gpio_scl_interrupt_handler st_inflight env_ok 0 =
        ps2_gpio_scl_interrupt_handler_write st_inflight 0 ∧
      (ps2_gpio_scl_interrupt_handler st_inflight env_ok 0).1.cur_read_pos =
        st_inflight.cur_read_pos ∧
      (ps2_gpio_scl_interrupt_handler st_inflight env_ok 0).1.cur_read_byte =
        st_inflight.cur_read_byte) ∧
    (ps2_gpio_scl_interrupt_handler (read_idle_state false false) env_ok 0 =
      ps2_gpio_scl_interrupt_handler_read (read_idle_state false false) env_ok 0) :=
  ⟨(claim_C9_dispatch_by_mode st_inflight env_ok 0).1 rfl,
   (claim_C9_dispatch_by_mode (read_idle_state false false) env_ok 0).2 rfl⟩

/-- Claim C10: a received byte goes to the callback exactly when one is
registered and enabled and to the queue otherwise, never both; enabling
and disabling the callback both leave the queue drained; and after
enabling with a registered callback, a received byte goes only to the
callback and the queue stays empty. -/
theorem claim_C10_delivery_routing_and_drain (st : ps2_gpio_data) (b : Nat) :
    ((st.callback_isr && st.callback_enabled) = true →
      ps2_gpio_process_received_byte st b = (st, [ps2_act.callback_invoke b])) ∧
    ((st.callback_isr && st.callback_enabled) = false →
      ps2_gpio_process_received_byte st b =
        ({ st with data_queue := st.data_queue ++ [b] }, [ps2_act.fifo_put b])) ∧
    ((ps2_gpio_enable_callback st).1.callback_enabled = true ∧
     (ps2_gpio_enable_callback st).1.data_queue = []) ∧
    ((ps2_gpio_disable_callback st).1.callback_enabled = false ∧
     (ps2_gpio_disable_callback st).1.data_queue = []) ∧
    (st.callback_isr = true →
      ps2_gpio_process_received_byte (ps2_gpio_enable_callback st).1 b =
        ((ps2_gpio_enable_callback st).1, [ps2_act.callback_invoke b])) := by
  refine ⟨?_, ?_, ?_, ?_, ?_⟩
  · intro h
    simp [ps2_gpio_process_received_byte, h]
  · intro h
    simp [ps2_gpio_process_received_byte, h]
  · simp [ps2_gpio_enable_callback, ps2_gpio_empty_data_queue]
  · simp [ps2_gpio_disable_callback, ps2_gpio_empty_data_queue]
  · intro h
    simp [ps2_gpio_process_received_byte, ps2_gpio_enable_callback,
          ps2_gpio_empty_data_queue, h]

/-- Witness for claim C10: enabling the callback over a state with two
stale queued bytes drains the queue, and the next byte goes only to the
callback. -/
theorem claim_C10_witness :
    ((ps2_gpio_enable_callback st_queued).1.callback_enabled = true ∧
     (ps2_gpio_enable_callback st_queued).1.data_queue = []) ∧
    ps2_gpio_process_received_byte (ps2_gpio_enable_callback st_queued).1 7 =
      ((ps2_gpio_enable_callback st_queued).1, [ps2_act.callback_invoke 7]) :=
  ⟨(claim_C10_delivery_routing_and_drain st_queued 7).2.2.1,
   (claim_C10_delivery_routing_and_drain st_queued 7).2.2.2.2 rfl⟩
